import Mathlib

/-!
Verification of the accelerator inference scheduler of the
cell-segmentation service.  The definitions below are a shallow
embedding of the Python sources:

* `backend/segmentation/ml/inference_executor.py`
* `backend/segmentation/services/production_inference.py`
* `backend/segmentation/monitoring/gpu_monitor.py`

Timestamps and fractional quantities (seconds, milliseconds, memory
percentages) are modelled as rationals; byte counts as integers.
Live readings of the process clock, device memory and the outcome of
the submitted model callable are inputs (`CallEnv`) to the otherwise
pure state-transition functions.
-/

namespace CellSeg

/-! ## `InferenceStatus` and `InferenceSession` (inference_executor.py) -/

/-- Status of an inference request (`class InferenceStatus(Enum)`). -/
inductive InferenceStatus where
  | pending
  | running
  | completed
  | timeout
  | failed
  | cancelled
deriving DecidableEq

/-- The list of statuses treated as terminal by `update_status`
(`[COMPLETED, FAILED, TIMEOUT, CANCELLED]`). -/
def terminalStatuses : List InferenceStatus :=
  [.completed, .failed, .timeout, .cancelled]

/-- Models `status in [COMPLETED, FAILED, TIMEOUT, CANCELLED]`. -/
def InferenceStatus.isTerminal (s : InferenceStatus) : Bool :=
  terminalStatuses.contains s

/-- Metrics for an inference request (`@dataclass InferenceMetrics`). -/
structure InferenceMetrics where
  start_time : ℚ
  end_time : Option ℚ := none
  memory_before : Option ℤ := none
  memory_after : Option ℤ := none
  status : InferenceStatus := .pending
  error : Option String := none
deriving DecidableEq

/-- Context for a single inference session (`class InferenceSession`). -/
structure InferenceSession where
  session_id : String
  model_name : String
  metrics : InferenceMetrics
deriving DecidableEq

/-- Models `InferenceSession.__init__`: metrics start at the construction time
with default fields. -/
def InferenceSession.mk0 (session_id model_name : String) (now : ℚ) :
    InferenceSession :=
  ⟨session_id, model_name, { start_time := now }⟩

/-- Python truthiness of an `Optional[str]` (`if error:`): `None` and the
empty string are falsy. -/
def strTruthy : Option String → Bool
  | none => false
  | some s => s ≠ ""

/-- Models `InferenceSession.update_status(status, error=None)` evaluated at clock
reading `now` (the value `time.time()` would return inside the call):
the status field is assigned unconditionally, the error text is stored
when truthy, and an end timestamp is stamped whenever the new status is
terminal. -/
def InferenceSession.update_status (sess : InferenceSession)
    (status : InferenceStatus) (error : Option String) (now : ℚ) :
    InferenceSession :=
  let m := sess.metrics
  let m := { m with status := status }
  let m := if strTruthy error then { m with error := error } else m
  let m := if status.isTerminal then { m with end_time := some now } else m
  { sess with metrics := m }

/-! ## `DynamicBatchQueue` (production_inference.py) -/

/-- Single inference request (`@dataclass InferenceRequest`).  The image
is a plane of pixel intensities; the callback future is not modelled. -/
structure InferenceRequest where
  id : String
  image : List ℚ
  model_name : String
  threshold : ℚ
  timestamp : ℚ
deriving DecidableEq

/-- Models `DynamicBatchQueue.add`: reject when the queue already holds
`max_queue_size` requests (no eviction), otherwise append at the tail.
Returns the flag and the new queue contents. -/
def DynamicBatchQueue.add (queue : List InferenceRequest)
    (max_queue_size : ℕ) (request : InferenceRequest) :
    Bool × List InferenceRequest :=
  if max_queue_size ≤ queue.length then
    (false, queue)
  else
    (true, queue ++ [request])

/-- Models `DynamicBatchQueue.get_batch` evaluated at clock reading `now`
(the value `current_time = time.time()`); returns the popped batch and
the remaining queue.  The waiting-time guard is evaluated only while the
accumulated batch is empty, i.e. for the head of the queue: once the
head is popped the loop drains the queue up to `max_batch_size`. -/
def DynamicBatchQueue.get_batch (queue : List InferenceRequest)
    (max_batch_size : ℕ) (max_queue_delay_ms : ℚ) (now : ℚ) :
    List InferenceRequest × List InferenceRequest :=
  match queue with
  | [] => ([], [])
  | request :: _ =>
    if 0 < max_batch_size then
      let wait_time_ms := (now - request.timestamp) * 1000
      if wait_time_ms < max_queue_delay_ms ∧ queue.length < max_batch_size then
        ([], queue)
      else
        (queue.take max_batch_size, queue.drop max_batch_size)
    else
      ([], queue)

/-! ## `InferenceExecutor` (inference_executor.py)

The executor wraps a model call in monitoring checks, a session
registration and an exception-translating wait.  The live readings it
makes (memory samples, device utilization, clock, and the behaviour of
the submitted callable) are gathered into `CallEnv`; the mutable fields
of the executor object form `ExecutorState`. -/

/-- Exceptions of the executor call path.  Messages built by the source
from float formatting (`f"...{x:.2f}GB..."`) are modelled by `toString`
on the exact quantities; the carried data is the same.
`runtimeError`/`otherError` stand for a `RuntimeError` respectively any
other exception raised by the model callable. -/
inductive PyExc where
  | runtimeError (msg : String)
  | otherError (msg : String)
  | inferenceError (msg : String)
  | resourceError (msg : String)
  | timeoutError (model_name : String) (timeout : ℚ) (image_size : ℕ × ℕ)
deriving DecidableEq

/-- Models `str(e)` for the exceptions above; `InferenceTimeoutError.__init__`
builds its message from the model name, the timeout and the image size. -/
def PyExc.str : PyExc → String
  | .runtimeError m => m
  | .otherError m => m
  | .inferenceError m => m
  | .resourceError m => m
  | .timeoutError n t s =>
      "Model '" ++ n ++ "' inference timed out after " ++ toString t ++
      "s for image " ++ toString s ++
      ". Consider using a simpler model or increasing timeout."

/-- ASCII lower-casing of one character (`str.lower`). -/
def asciiLower (c : Char) : Char :=
  if 'A' ≤ c ∧ c ≤ 'Z' then Char.ofNat (c.toNat + 32) else c

def charsStartWith : List Char → List Char → Bool
  | [], _ => true
  | _ :: _, [] => false
  | p :: ps, c :: cs => p = c && charsStartWith ps cs

/-- Substring containment (`pat in s`). -/
def charsContain (pat : List Char) : List Char → Bool
  | [] => charsStartWith pat []
  | c :: cs => charsStartWith pat (c :: cs) || charsContain pat cs

/-- Models `"out of memory" in str(e).lower()`. -/
def oomText (msg : String) : Bool :=
  charsContain "out of memory".data (msg.data.map asciiLower)

/-- Raw value returned by the model callable before unwrapping: either a
tensor or a (non-empty) tuple of tensors.  Tensors are opaque ids. -/
inductive RawOutput where
  | tensor (t : ℕ)
  | tup (t : ℕ) (rest : List ℕ)
deriving DecidableEq

/-- Models `if isinstance(output, tuple): output = output[0]`. -/
def unwrapOutput : RawOutput → ℕ
  | .tensor t => t
  | .tup t _ => t

/-- What the submitted callable does relative to the caller-side wait:
it returns within the timeout, the wait times out, or it raises within
the timeout (`runtime = true` for a `RuntimeError`). -/
inductive CallOutcome where
  | completes (out : RawOutput)
  | timesOut
  | raises (runtime : Bool) (msg : String)
deriving DecidableEq

/-- Mutable state of an `InferenceExecutor`. -/
structure ExecutorState where
  default_timeout : ℚ
  memory_limit_bytes : ℤ
  enable_monitoring : Bool
  enable_cuda_streams : Bool
  cuda_available : Bool
  num_streams : ℕ
  stream_index : ℕ
  memory_pressure_threshold : ℚ
  emergency_cleanup_threshold : ℚ
  sessions : List String
  total_inferences : ℕ
  timeout_count : ℕ
  failure_count : ℕ
  empty_cache_calls : ℕ
  emergency_cleanup_calls : ℕ
deriving DecidableEq

/-- Models `InferenceExecutor.__init__`: `memory_limit_bytes` is
`int(memory_limit_gb * 1024**3)` (truncation = floor for the positive
limits used); CUDA streams are created only when enabled and a device
is present; counters start at zero. -/
def initExecutor (max_workers : ℕ) (default_timeout memory_limit_gb : ℚ)
    (enable_monitoring enable_cuda_streams cuda_available : Bool) :
    ExecutorState :=
  { default_timeout := default_timeout
    memory_limit_bytes := ⌊memory_limit_gb * 1073741824⌋
    enable_monitoring := enable_monitoring
    enable_cuda_streams := enable_cuda_streams
    cuda_available := cuda_available
    num_streams :=
      if enable_cuda_streams ∧ cuda_available then max_workers else 0
    stream_index := 0
    memory_pressure_threshold := 9/10
    emergency_cleanup_threshold := 95/100
    sessions := []
    total_inferences := 0
    timeout_count := 0
    failure_count := 0
    empty_cache_calls := 0
    emergency_cleanup_calls := 0 }

/-- Live readings consumed by one `execute_inference` call. -/
structure CallEnv where
  session_id : String
  /-- Models `_get_memory_usage()` sample (bytes) for the pre-flight check and
  `memory_before`. -/
  memory_usage : ℤ
  /-- Models `_get_memory_usage()` sample for `memory_after` on success. -/
  memory_usage_after : ℤ
  /-- Models `torch.cuda.get_device_properties(0).total_memory`. -/
  gpu_total : ℚ
  /-- Models `torch.cuda.memory_allocated()` at the pressure check. -/
  gpu_allocated : ℚ
  /-- Models `torch.cuda.memory_allocated()` re-sampled after an emergency
  cleanup. -/
  gpu_allocated_after : ℚ
  outcome : CallOutcome
  /-- Clock readings: session creation, the RUNNING transition, the
  terminal transition, and the context manager's FAILED overwrite. -/
  t_create : ℚ
  t_run : ℚ
  t_end : ℚ
  t_ctx : ℚ
deriving DecidableEq

/-- Models `_emergency_memory_cleanup`: the whole body is guarded by
`torch.cuda.is_available()`; it releases the device cache (the stream
synchronization and garbage collection have no modelled effect). -/
def emergencyCleanup (st : ExecutorState) : ExecutorState :=
  if st.cuda_available then
    { st with
      empty_cache_calls := st.empty_cache_calls + 1
      emergency_cleanup_calls := st.emergency_cleanup_calls + 1 }
  else
    { st with emergency_cleanup_calls := st.emergency_cleanup_calls + 1 }

/-- Message of the `InferenceResourceError` raised by
`_check_resources` — it carries the current usage and the limit. -/
def memLimitMsg (memory_usage memory_limit_bytes : ℤ) : String :=
  "Memory usage (" ++ toString memory_usage ++
  "B) exceeds limit (" ++ toString memory_limit_bytes ++ "B)"

/-- Message of the `InferenceResourceError` raised by
`_check_gpu_memory_pressure` after an unsuccessful cleanup. -/
def pressureMsg (utilization allocated total : ℚ) : String :=
  "GPU memory pressure critical: " ++ toString utilization ++
  " utilized (" ++ toString allocated ++ "B / " ++ toString total ++ "B)"

/-- Models `_check_resources`: raise a resource error when the sampled memory
usage exceeds the hard limit (the CPU check only logs). -/
def checkResources (st : ExecutorState) (env : CallEnv) : Option PyExc :=
  if env.memory_usage > st.memory_limit_bytes then
    some (.resourceError (memLimitMsg env.memory_usage st.memory_limit_bytes))
  else
    none

/-- Models `_check_gpu_memory_pressure` (called only when monitoring is on and
CUDA is available): over the emergency threshold run the emergency
cleanup, re-sample, and raise when still over the pressure threshold. -/
def checkGpuMemoryPressure (st : ExecutorState) (env : CallEnv) :
    ExecutorState × Option PyExc :=
  let utilization := env.gpu_allocated / env.gpu_total
  if utilization > st.emergency_cleanup_threshold then
    let st := emergencyCleanup st
    let utilization2 := env.gpu_allocated_after / env.gpu_total
    if utilization2 > st.memory_pressure_threshold then
      (st, some (.resourceError
        (pressureMsg utilization2 env.gpu_allocated_after env.gpu_total)))
    else
      (st, none)
  else
    (st, none)

/-- Models `get_next_cuda_stream`: advance the rotating index when streams are
enabled and present. -/
def rotateStream (st : ExecutorState) : ExecutorState :=
  if st.enable_cuda_streams ∧ 0 < st.num_streams then
    { st with stream_index := (st.stream_index + 1) % st.num_streams }
  else
    st

/-- The checks `execute_inference` performs before entering
`inference_context`: the pre-flight resource check, the GPU pressure
check, and the stream rotation.  Returns the updated state and the
exception that escapes, if any (both checks fire before any session is
registered). -/
def preflight (st : ExecutorState) (env : CallEnv) :
    ExecutorState × Option PyExc :=
  if st.enable_monitoring then
    match checkResources st env with
    | some e => (st, some e)
    | none =>
      let (st, pressureErr) :=
        if st.cuda_available then checkGpuMemoryPressure st env
        else (st, none)
      match pressureErr with
      | some e => (st, some e)
      | none => (rotateStream st, none)
  else
    (rotateStream st, none)

/-- Models `self._sessions[session_id] = session` on the id set: a dict
assignment adds the key when absent. -/
def registerSession (sessions : List String) (id : String) : List String :=
  if id ∈ sessions then sessions else sessions ++ [id]

/-- Models `self._sessions.pop(session_id, None)` on the id set. -/
def popSession (sessions : List String) (id : String) : List String :=
  sessions.erase id

/-- Result of one `execute_inference` call: the executor state after
the call, the returned tensor or escaping exception, the session
record at the moment it is popped from the registry, the sequence of
statuses `update_status` was called with, whether `future.cancel()` was
requested, and whether the model callable was submitted at all. -/
structure ExecResult where
  state : ExecutorState
  result : Except PyExc ℕ
  finalSession : Option InferenceSession
  statusUpdates : List InferenceStatus
  cancelRequested : Bool
  callableInvoked : Bool

/-- The body of `execute_inference` from `inference_context` onward,
given the post-preflight state: register the session, mark RUNNING
(recording `memory_before` when monitoring), wait on the future, and
translate the three outcomes.  On success the context manager records
`memory_after` and marks COMPLETED; on a timeout the future is
cancelled, TIMEOUT is marked, the timeout counter bumped, the device
cache released when CUDA is present, and an `InferenceTimeoutError`
raised; on any other exception the session is marked FAILED, the
failure counter bumped, the cache released when CUDA is present, and a
generic `InferenceError` wrapping `str(e)` raised — where `e` is the
`InferenceResourceError` substituted by `_run_inference` after an
emergency cleanup when a `RuntimeError` mentions "out of memory", and
the original exception otherwise.  An exception leaving the `with`
body is re-seen by `inference_context`, which overwrites the status to
FAILED; the `finally` block always pops the session. -/
def runPhase (st : ExecutorState) (env : CallEnv) (model_name : String)
    (timeout : ℚ) (image_size : Option (ℕ × ℕ)) : ExecResult :=
  let sessions1 := registerSession st.sessions env.session_id
  let sess0 := InferenceSession.mk0 env.session_id model_name env.t_create
  let sess0 :=
    if st.enable_monitoring then
      { sess0 with metrics :=
          { sess0.metrics with memory_before := some env.memory_usage } }
    else
      sess0
  let sessR := sess0.update_status .running none env.t_run
  match env.outcome with
  | .completes out =>
    let sessR :=
      if st.enable_monitoring then
        { sessR with metrics :=
            { sessR.metrics with memory_after := some env.memory_usage_after } }
      else
        sessR
    let sessC := sessR.update_status .completed none env.t_end
    { state := { st with
        sessions := popSession sessions1 env.session_id
        total_inferences := st.total_inferences + 1 }
      result := .ok (unwrapOutput out)
      finalSession := some sessC
      statusUpdates := [.running, .completed]
      cancelRequested := false
      callableInvoked := true }
  | .timesOut =>
    let exc := PyExc.timeoutError model_name timeout (image_size.getD (0, 0))
    let sessT := sessR.update_status .timeout none env.t_end
    let sessF := sessT.update_status .failed (some exc.str) env.t_ctx
    { state := { st with
        sessions := popSession sessions1 env.session_id
        timeout_count := st.timeout_count + 1
        empty_cache_calls :=
          st.empty_cache_calls + (if st.cuda_available then 1 else 0) }
      result := .error exc
      finalSession := some sessF
      statusUpdates := [.running, .timeout, .failed]
      cancelRequested := true
      callableInvoked := true }
  | .raises runtime msg =>
    let isOom := runtime && oomText msg
    let st := if isOom then emergencyCleanup st else st
    let e : PyExc :=
      if isOom then
        .resourceError ("GPU out of memory during inference: " ++ msg)
      else if runtime then .runtimeError msg
      else .otherError msg
    let wrapped := PyExc.inferenceError ("Inference failed: " ++ e.str)
    let sessF := sessR.update_status .failed (some e.str) env.t_end
    let sessF2 := sessF.update_status .failed (some wrapped.str) env.t_ctx
    { state := { st with
        sessions := popSession sessions1 env.session_id
        failure_count := st.failure_count + 1
        empty_cache_calls :=
          st.empty_cache_calls + (if st.cuda_available then 1 else 0) }
      result := .error wrapped
      finalSession := some sessF2
      statusUpdates := [.running, .failed, .failed]
      cancelRequested := false
      callableInvoked := true }

/-- Models `execute_inference(model, input_tensor, model_name, timeout,
image_size)`: resolve the effective timeout (`timeout or
self.default_timeout`, so `None` and `0` both fall back to the
default), run the pre-call checks, and on their success enter the
session phase. -/
def executeInference (st : ExecutorState) (env : CallEnv)
    (model_name : String) (timeout : Option ℚ)
    (image_size : Option (ℕ × ℕ)) : ExecResult :=
  let timeout :=
    match timeout with
    | none => st.default_timeout
    | some t => if t = 0 then st.default_timeout else t
  let (st1, err) := preflight st env
  match err with
  | some e =>
    { state := st1
      result := .error e
      finalSession := none
      statusUpdates := []
      cancelRequested := false
      callableInvoked := false }
  | none => runPhase st1 env model_name timeout image_size

/-- The counter-derived part of `get_metrics`. -/
structure ExecutorMetrics where
  total_inferences : ℕ
  timeout_count : ℕ
  failure_count : ℕ
  timeout_rate : ℚ
  failure_rate : ℚ
  active_sessions : ℕ
deriving DecidableEq

/-- Models `get_metrics`: the rates divide by `max(1, self.total_inferences)`. -/
def getMetrics (st : ExecutorState) : ExecutorMetrics :=
  { total_inferences := st.total_inferences
    timeout_count := st.timeout_count
    failure_count := st.failure_count
    timeout_rate := (st.timeout_count : ℚ) / (max 1 st.total_inferences : ℕ)
    failure_rate := (st.failure_count : ℚ) / (max 1 st.total_inferences : ℕ)
    active_sessions := st.sessions.length }

/-! ## `ProductionInferenceService` batch postprocessing
(production_inference.py) -/

/-- Models `np.mean` of a list of thresholds. -/
def npMean (l : List ℚ) : ℚ := l.sum / l.length

/-- Models `preprocess_batch` pixel normalization: `tensor / 255.0` (the
stacking keeps the per-request order). -/
def preprocessBatch (images : List (List ℚ)) : List (List ℚ) :=
  images.map (fun img => img.map (fun x => x / 255))

/-- Models `postprocess_batch(output, threshold)`: sigmoid, binarize at the
single given threshold, split the batch.  The sigmoid is an abstract
strictly-monotone activation `sig`; each request's slice is its row. -/
def postprocessBatch (sig : ℚ → ℚ) (output : List (List ℚ))
    (threshold : ℚ) : List (List Bool) :=
  output.map (fun row => row.map (fun x => sig x > threshold))

/-- The mask-producing dataflow of `process_batch`: stack and normalize
the images, run the model (`modelF`, batch-in/batch-out), average the
member thresholds with `np.mean`, and postprocess the whole output with
that single averaged threshold. -/
def processBatchMasks (sig : ℚ → ℚ)
    (modelF : List (List ℚ) → List (List ℚ))
    (requests : List InferenceRequest) : List (List Bool) :=
  let images := requests.map (fun r => r.image)
  let output := modelF (preprocessBatch images)
  let thresholds := requests.map (fun r => r.threshold)
  let avg_threshold := npMean thresholds
  postprocessBatch sig output avg_threshold

/-- The per-request alternative the spec's reader might expect and the
code does **not** implement: each request's row binarized at that
request's own threshold. -/
def perRequestMasks (sig : ℚ → ℚ)
    (modelF : List (List ℚ) → List (List ℚ))
    (requests : List InferenceRequest) : List (List Bool) :=
  let images := requests.map (fun r => r.image)
  let output := modelF (preprocessBatch images)
  (output.zip (requests.map (fun r => r.threshold))).map
    (fun p => p.1.map (fun x => sig x > p.2))

/-! ## `GPUMonitor.should_reduce_batch_size` (gpu_monitor.py) -/

/-- The slice of `GPUMonitor` state that `should_reduce_batch_size`
reads: whether a CUDA device is present and the `success` flags of the
recorded `batch_metrics`, in recording order. -/
structure GPUMonitorState where
  is_cuda : Bool
  batch_success : List Bool
deriving DecidableEq

/-- Models `sum(1 for m in self.batch_metrics[-5:] if not m.success)`: failures
among the last five recorded batches (all models together). -/
def recentFailures (st : GPUMonitorState) : ℕ :=
  ((st.batch_success.drop (st.batch_success.length - 5)).filter
    (fun s => s = false)).length

/-- Result of `get_current_metrics()` as far as
`should_reduce_batch_size` reads it: `none` models the `None` returns
(no CUDA device or a sampling failure), `some p` carries
`memory_usage_percent`. -/
def currentUsagePercent : Option ℚ → ℚ → Bool
  | none, _ => false
  | some p, threshold => p > threshold

/-- Models `GPUMonitor.should_reduce_batch_size(threshold)`; `current` is the
live sample `get_current_metrics()` would return. -/
def GPUMonitor.should_reduce_batch_size (st : GPUMonitorState)
    (current : Option ℚ) (threshold : ℚ) : Bool :=
  if ¬ st.is_cuda then
    false
  else if currentUsagePercent current threshold then
    true
  else if 2 ≤ recentFailures st then
    true
  else
    false

/-! ## Concrete instances used in the theorems below -/

/-- A freshly constructed session. -/
def demoSession : InferenceSession := InferenceSession.mk0 "s1" "hrnet" 0

/-- An executor with monitoring and CUDA streams disabled and no CUDA
device (the configuration that makes the pre-call checks trivially
pass). -/
def demoExecutor : ExecutorState := initExecutor 4 60 20 false false false

/-- A call whose submitted callable raises
`RuntimeError("CUDA out of memory")`. -/
def demoEnvOom : CallEnv :=
  ⟨"s-oom", 0, 0, 1, 0, 0, .raises true "CUDA out of memory", 0, 0, 0, 0⟩

/-- A call whose caller-side wait times out. -/
def demoEnvTimeout : CallEnv :=
  ⟨"s-to", 0, 0, 1, 0, 0, .timesOut, 0, 0, 0, 0⟩

/-- A call whose submitted callable raises a non-OOM exception. -/
def demoEnvFailure : CallEnv :=
  ⟨"s-fail", 0, 0, 1, 0, 0, .raises false "boom", 0, 0, 0, 0⟩

/-- A call whose submitted callable completes. -/
def demoEnvOk : CallEnv :=
  ⟨"s-ok", 0, 0, 1, 0, 0, .completes (.tensor 7), 0, 0, 0, 0⟩

/-- Executor state after two timed-out calls and no successful one. -/
def twoTimeoutsState : ExecutorState :=
  (executeInference
    (executeInference demoExecutor demoEnvTimeout "hrnet" none none).state
    demoEnvTimeout "hrnet" none none).state

/-- Executor state after two failed calls and no successful one. -/
def twoFailuresState : ExecutorState :=
  (executeInference
    (executeInference demoExecutor demoEnvFailure "hrnet" none none).state
    demoEnvFailure "hrnet" none none).state

/-- Holds exactly on results that fail with an
`InferenceResourceError`. -/
def isResourceErrorResult : Except PyExc ℕ → Bool
  | .error (.resourceError _) => true
  | _ => false

/-- An executor with monitoring enabled and no CUDA device. -/
def demoExecutorMon : ExecutorState := initExecutor 4 60 20 true false false

/-- A call sampled with a memory usage far over the 20 GB limit. -/
def demoEnvOverLimit : CallEnv :=
  ⟨"s-mem", 99999999999999, 0, 1, 0, 0, .completes (.tensor 7), 0, 0, 0, 0⟩

/-- A monitor state with no CUDA device and three consecutive recorded
batch failures. -/
def demoMonitorNoCuda : GPUMonitorState := ⟨false, [false, false, false]⟩

/-- Two queued requests submitted at time 0 (used with clock reading 10,
so the oldest has waited 10000 ms). -/
def demoRequestA : InferenceRequest := ⟨"a", [170], "hrnet", 1/5, 0⟩

def demoRequestB : InferenceRequest := ⟨"b", [170], "hrnet", 4/5, 0⟩

def demoQueue : List InferenceRequest := [demoRequestA, demoRequestB]

/-- The executor-state fields that the pre-call checks must not touch:
registry, aggregate counters and the device flag. -/
def SameCore (a b : ExecutorState) : Prop :=
  a.sessions = b.sessions ∧
  a.total_inferences = b.total_inferences ∧
  a.timeout_count = b.timeout_count ∧
  a.failure_count = b.failure_count ∧
  a.cuda_available = b.cuda_available

/-! ## Theorems -/

theorem sameCore_refl (s : ExecutorState) : SameCore s s :=
  ⟨rfl, rfl, rfl, rfl, rfl⟩

theorem sameCore_trans {a b c : ExecutorState}
    (h1 : SameCore a b) (h2 : SameCore b c) : SameCore a c :=
  ⟨h1.1.trans h2.1, h1.2.1.trans h2.2.1, h1.2.2.1.trans h2.2.2.1,
    h1.2.2.2.1.trans h2.2.2.2.1, h1.2.2.2.2.trans h2.2.2.2.2⟩

theorem sameCore_rotate (s : ExecutorState) :
    SameCore (rotateStream s) s := by
  unfold rotateStream
  split
  · exact ⟨rfl, rfl, rfl, rfl, rfl⟩
  · exact sameCore_refl s

theorem sameCore_cleanup (s : ExecutorState) :
    SameCore (emergencyCleanup s) s := by
  unfold emergencyCleanup
  split
  · exact ⟨rfl, rfl, rfl, rfl, rfl⟩
  · exact ⟨rfl, rfl, rfl, rfl, rfl⟩

theorem sameCore_pressure (s : ExecutorState) (env : CallEnv) :
    SameCore (checkGpuMemoryPressure s env).1 s := by
  unfold checkGpuMemoryPressure
  dsimp only
  split
  · split
    · exact sameCore_cleanup s
    · exact sameCore_cleanup s
  · exact sameCore_refl s

/-- The pre-call checks (`_check_resources`,
`_check_gpu_memory_pressure`, stream rotation) leave the registry, the
aggregate counters and the device flag unchanged. -/
theorem preflight_preserves (st : ExecutorState) (env : CallEnv) :
    SameCore (preflight st env).1 st := by
  unfold preflight
  by_cases hm : st.enable_monitoring = true
  · rw [if_pos hm]
    cases hcr : checkResources st env with
    | some e => exact sameCore_refl st
    | none =>
      by_cases hc : st.cuda_available = true
      · rw [if_pos hc]
        rcases hcp : checkGpuMemoryPressure st env with ⟨st2, perr⟩
        have hpres := sameCore_pressure st env
        rw [hcp] at hpres
        simp only [hcp]
        cases perr with
        | some e => exact hpres
        | none => exact sameCore_trans (sameCore_rotate st2) hpres
      · rw [if_neg hc]
        exact sameCore_rotate st
  · rw [if_neg hm]
    exact sameCore_rotate st

/-- Registering a fresh session id and popping it restores the
registry. -/
theorem pop_register_of_not_mem (l : List String) (id : String)
    (h : id ∉ l) : popSession (registerSession l id) id = l := by
  unfold registerSession popSession
  rw [if_neg h, List.erase_append_right _ h, List.erase_cons_head,
    List.append_nil]

/-- C1: the claim fails on the code.  After `update_status(COMPLETED)`
at time 1, a second terminal call `update_status(TIMEOUT)` at time 2
leaves the session in status TIMEOUT (not COMPLETED) with its end
timestamp re-stamped to 2 (not the 1 stamped by the first call): the
second terminal transition is not a no-op. -/
theorem C1_counterexample :
    ((demoSession.update_status .completed none 1).update_status
        .timeout none 2).metrics.status = .timeout ∧
    ((demoSession.update_status .completed none 1).update_status
        .timeout none 2).metrics.end_time = some 2 ∧
    InferenceStatus.timeout ≠ InferenceStatus.completed ∧
    some (2 : ℚ) ≠ some (1 : ℚ) :=
  ⟨by decide, by decide, by decide, by decide⟩

/-- C1 (amended): for any session and terminal statuses A and B,
calling `update_status` with A and then with B leaves the session's
status equal to B and its end timestamp re-stamped by the second call;
neither call throws (both are total). -/
theorem C1_second_terminal_overwrites (sess : InferenceSession)
    (A B : InferenceStatus) (t1 t2 : ℚ)
    (hA : A.isTerminal = true) (hB : B.isTerminal = true) :
    ((sess.update_status A none t1).update_status B none t2).metrics.status
        = B ∧
    ((sess.update_status A none t1).update_status B none t2).metrics.end_time
        = some t2 := by
  unfold InferenceSession.update_status
  simp [strTruthy, hB]

/-- Witness for C1's amended theorem at COMPLETED-then-TIMEOUT. -/
theorem C1_second_terminal_overwrites_witness :
    InferenceStatus.completed.isTerminal = true ∧
    InferenceStatus.timeout.isTerminal = true ∧
    (((demoSession.update_status .completed none 1).update_status
        .timeout none 2).metrics.status = .timeout ∧
     ((demoSession.update_status .completed none 1).update_status
        .timeout none 2).metrics.end_time = some 2) :=
  ⟨by decide, by decide,
    C1_second_terminal_overwrites demoSession .completed .timeout 1 2
      (by decide) (by decide)⟩

/-- C3: `get_batch` pops at most `max_batch_size` requests, from the
front of the queue; (a) with at least `max_batch_size` requests waiting
it returns exactly `max_batch_size` of them regardless of waiting time;
(b) with fewer waiting and the oldest having waited at least
`max_queue_delay_ms` it returns all of them and empties the queue;
(c) with fewer waiting and the oldest having waited less than
`max_queue_delay_ms` it returns the empty batch and leaves the queue
unchanged. -/
theorem C3_get_batch_formation (queue : List InferenceRequest)
    (max_batch_size : ℕ) (max_queue_delay_ms now : ℚ) :
    (DynamicBatchQueue.get_batch queue max_batch_size
        max_queue_delay_ms now).1.length ≤ max_batch_size ∧
    (DynamicBatchQueue.get_batch queue max_batch_size
        max_queue_delay_ms now).1 ++
      (DynamicBatchQueue.get_batch queue max_batch_size
        max_queue_delay_ms now).2 = queue ∧
    (max_batch_size ≤ queue.length →
      (DynamicBatchQueue.get_batch queue max_batch_size
          max_queue_delay_ms now).1.length = max_batch_size) ∧
    (∀ r rest, queue = r :: rest → queue.length < max_batch_size →
      max_queue_delay_ms ≤ (now - r.timestamp) * 1000 →
      DynamicBatchQueue.get_batch queue max_batch_size max_queue_delay_ms now
        = (queue, [])) ∧
    (∀ r rest, queue = r :: rest → queue.length < max_batch_size →
      (now - r.timestamp) * 1000 < max_queue_delay_ms →
      DynamicBatchQueue.get_batch queue max_batch_size max_queue_delay_ms now
        = ([], queue)) := by
  cases queue with
  | nil =>
      refine ⟨by simp [DynamicBatchQueue.get_batch], ?_, ?_, ?_, ?_⟩
      · simp [DynamicBatchQueue.get_batch]
      · intro h
        simp [DynamicBatchQueue.get_batch] at h ⊢
        omega
      · intro r rest h
        exact absurd h (by simp)
      · intro r rest h
        exact absurd h (by simp)
  | cons q qs =>
      simp only [DynamicBatchQueue.get_batch]
      by_cases hpos : 0 < max_batch_size
      · rw [if_pos hpos]
        by_cases hguard : (now - q.timestamp) * 1000 < max_queue_delay_ms ∧
            (q :: qs).length < max_batch_size
        · rw [if_pos hguard]
          refine ⟨by simp, by simp, ?_, ?_, ?_⟩
          · intro hlen
            exact absurd hlen (not_le.mpr hguard.2)
          · intro r rest hq hlen hwait
            cases hq
            exact absurd hguard.1 (not_lt.mpr hwait)
          · intro r rest hq hlen hwait
            rfl
        · rw [if_neg hguard]
          refine ⟨?_, List.take_append_drop _ _, ?_, ?_, ?_⟩
          · rw [List.length_take]
            omega
          · intro hlen
            rw [List.length_take]
            omega
          · intro r rest hq hlen hwait
            cases hq
            have htake : (q :: qs).take max_batch_size = q :: qs :=
              List.take_of_length_le (le_of_lt hlen)
            have hdrop : (q :: qs).drop max_batch_size = [] :=
              List.drop_eq_nil_of_le (le_of_lt hlen)
            rw [htake, hdrop]
          · intro r rest hq hlen hwait
            cases hq
            exact absurd ⟨hwait, hlen⟩ hguard
      · rw [if_neg hpos]
        refine ⟨by simp, by simp, ?_, ?_, ?_⟩
        · intro hlen
          have hz : max_batch_size = 0 := by omega
          simp [hz]
        · intro r rest hq hlen hwait
          exact absurd hlen (by omega)
        · intro r rest hq hlen hwait
          exact absurd hlen (by omega)

/-- Witness for C3 at a two-element queue with `max_batch_size = 4`,
`max_queue_delay_ms = 5` and an oldest member that has waited 10000 ms:
the whole queue is released as a partial batch. -/
theorem C3_get_batch_formation_witness :
    demoQueue.length < 4 ∧
    (5 : ℚ) ≤ (10 - demoRequestA.timestamp) * 1000 ∧
    DynamicBatchQueue.get_batch demoQueue 4 5 10 = (demoQueue, []) :=
  ⟨by decide, by norm_num [demoRequestA],
    (C3_get_batch_formation demoQueue 4 5 10).2.2.2.1 demoRequestA
      [demoRequestB] rfl (by decide) (by norm_num [demoRequestA])⟩

/-- C8: `add` on a queue holding exactly `max_queue_size` requests
returns false and leaves the contents unchanged (no eviction); on a
queue below capacity it returns true and appends at the tail. -/
theorem C8_add_backpressure (queue : List InferenceRequest)
    (max_queue_size : ℕ) (r : InferenceRequest) :
    (queue.length = max_queue_size →
      DynamicBatchQueue.add queue max_queue_size r = (false, queue)) ∧
    (queue.length < max_queue_size →
      DynamicBatchQueue.add queue max_queue_size r = (true, queue ++ [r])) := by
  refine ⟨fun h => ?_, fun h => ?_⟩
  · unfold DynamicBatchQueue.add
    rw [if_pos (by omega)]
  · unfold DynamicBatchQueue.add
    rw [if_neg (by omega)]

/-- Witness for C8 at capacity 2: the full two-element queue rejects,
the empty queue accepts and appends. -/
theorem C8_add_backpressure_witness :
    demoQueue.length = 2 ∧
    DynamicBatchQueue.add demoQueue 2 demoRequestA = (false, demoQueue) ∧
    ([] : List InferenceRequest).length < 2 ∧
    DynamicBatchQueue.add [] 2 demoRequestA = (true, [demoRequestA]) :=
  ⟨rfl, (C8_add_backpressure demoQueue 2 demoRequestA).1 rfl,
    by decide, (C8_add_backpressure [] 2 demoRequestA).2 (by decide)⟩

/-- C6: the claim fails on the code.  With no CUDA device and three
consecutive recorded batch failures (so at least 2 of the last 5
recorded batches failed), `should_reduce_batch_size` returns false,
refuting the claimed if-and-only-if. -/
theorem C6_counterexample :
    GPUMonitor.should_reduce_batch_size demoMonitorNoCuda none 85 = false ∧
    2 ≤ recentFailures demoMonitorNoCuda :=
  ⟨by decide, by decide⟩

/-- C6 (amended): when a CUDA device is present,
`should_reduce_batch_size(threshold)` returns true iff the sampled
memory usage percentage exceeds `threshold` or at least 2 of the last
5 recorded batches failed; when no CUDA device is present it returns
false unconditionally. -/
theorem C6_should_reduce_characterization (st : GPUMonitorState)
    (current : Option ℚ) (threshold : ℚ) :
    (st.is_cuda = false →
      GPUMonitor.should_reduce_batch_size st current threshold = false) ∧
    (st.is_cuda = true →
      (GPUMonitor.should_reduce_batch_size st current threshold = true ↔
        (currentUsagePercent current threshold = true ∨
          2 ≤ recentFailures st))) := by
  unfold GPUMonitor.should_reduce_batch_size
  constructor
  · intro h
    simp [h]
  · intro h
    simp only [h, Bool.not_true, Bool.false_eq_true, if_false]
    by_cases hc : currentUsagePercent current threshold = true
    · simp [hc]
    · simp only [hc, Bool.false_eq_true, if_false]
      by_cases h2 : 2 ≤ recentFailures st
      · simp [h2]
      · simp [h2, hc]

/-- Witness for C6's amended theorem: CUDA present, sampled usage 90
over threshold 85 yields true. -/
theorem C6_should_reduce_characterization_witness :
    (⟨true, []⟩ : GPUMonitorState).is_cuda = true ∧
    GPUMonitor.should_reduce_batch_size ⟨true, []⟩ (some 90) 85 = true :=
  ⟨rfl,
    ((C6_should_reduce_characterization ⟨true, []⟩ (some 90) 85).2 rfl).mpr
      (Or.inl (by decide))⟩

/-- C9: every request's mask slice is its output row binarized at the
arithmetic mean of all the batch members' thresholds, and on a concrete
two-request batch with thresholds 1/5 and 4/5 the produced masks differ
from what per-request thresholds would produce: both members receive
masks computed with the same averaged threshold. -/
theorem C9_batch_threshold_averaged (sig : ℚ → ℚ)
    (modelF : List (List ℚ) → List (List ℚ))
    (requests : List InferenceRequest) (i : ℕ) :
    (processBatchMasks sig modelF requests)[i]? =
      ((modelF (preprocessBatch (requests.map (fun r => r.image))))[i]?).map
        (fun row => row.map
          (fun x => decide
            (sig x > npMean (requests.map (fun r => r.threshold))))) ∧
    processBatchMasks id (fun b => b) demoQueue ≠
      perRequestMasks id (fun b => b) demoQueue := by
  constructor
  · simp [processBatchMasks, postprocessBatch, List.getElem?_map]
  · intro h
    have h1 := congrArg (fun l => l[1]?) h
    simp [processBatchMasks, perRequestMasks, preprocessBatch,
      postprocessBatch, npMean, demoQueue, demoRequestA, demoRequestB,
      decide_eq_decide] at h1
    norm_num at h1

/-- C4: whatever the outcome (success, timeout, callable exception, or
a pre-flight resource error), `execute_inference` leaves the session
registry as it found it: the session created for the call — the
session id does not collide with a registered one — is removed before
the call returns or raises. -/
theorem C4_no_session_leak (st : ExecutorState) (env : CallEnv)
    (model_name : String) (timeout : Option ℚ) (image_size : Option (ℕ × ℕ))
    (hfresh : env.session_id ∉ st.sessions) :
    (executeInference st env model_name timeout image_size).state.sessions
      = st.sessions := by
  unfold executeInference
  rcases hp : preflight st env with ⟨st1, err⟩
  have hcore := preflight_preserves st env
  rw [hp] at hcore
  have hsess : st1.sessions = st.sessions := hcore.1
  cases err with
  | some e => simpa [hp] using hsess
  | none =>
      simp only [hp]
      unfold runPhase
      cases houtcome : env.outcome <;>
        simp [houtcome, hsess,
          pop_register_of_not_mem st.sessions env.session_id hfresh]

/-- Witness for C4 at a timed-out call on a fresh executor. -/
theorem C4_no_session_leak_witness :
    demoEnvTimeout.session_id ∉ demoExecutor.sessions ∧
    (executeInference demoExecutor demoEnvTimeout "hrnet" none
        none).state.sessions = demoExecutor.sessions :=
  ⟨by simp [demoEnvTimeout, demoExecutor, initExecutor],
    C4_no_session_leak demoExecutor demoEnvTimeout "hrnet" none none
      (by simp [demoEnvTimeout, demoExecutor, initExecutor])⟩

/-- C7: with monitoring enabled and the sampled memory usage strictly
over the hard limit, `execute_inference` fails fast with a resource
error carrying the usage and the limit, never invokes the model
callable, and changes no executor state. -/
theorem C7_preflight_resource_error (st : ExecutorState) (env : CallEnv)
    (model_name : String) (timeout : Option ℚ) (image_size : Option (ℕ × ℕ))
    (hm : st.enable_monitoring = true)
    (hmem : env.memory_usage > st.memory_limit_bytes) :
    (executeInference st env model_name timeout image_size).result
      = .error (.resourceError
          (memLimitMsg env.memory_usage st.memory_limit_bytes)) ∧
    (executeInference st env model_name timeout image_size).callableInvoked
      = false ∧
    (executeInference st env model_name timeout image_size).state = st := by
  have hcr : checkResources st env
      = some (.resourceError
          (memLimitMsg env.memory_usage st.memory_limit_bytes)) := by
    unfold checkResources
    rw [if_pos hmem]
  have hp : preflight st env
      = (st, some (.resourceError
          (memLimitMsg env.memory_usage st.memory_limit_bytes))) := by
    unfold preflight
    rw [if_pos hm, hcr]
  refine ⟨?_, ?_, ?_⟩ <;> simp [executeInference, hp]

/-- Witness for C7 on a monitoring-enabled executor with a sampled
usage of 99999999999999 bytes against the 20 GB limit. -/
theorem C7_preflight_resource_error_witness :
    demoExecutorMon.enable_monitoring = true ∧
    demoEnvOverLimit.memory_usage > demoExecutorMon.memory_limit_bytes ∧
    (executeInference demoExecutorMon demoEnvOverLimit "hrnet" none
        none).result
      = .error (.resourceError (memLimitMsg demoEnvOverLimit.memory_usage
          demoExecutorMon.memory_limit_bytes)) ∧
    (executeInference demoExecutorMon demoEnvOverLimit "hrnet" none
        none).callableInvoked = false := by
  have hm : demoExecutorMon.enable_monitoring = true := rfl
  have hlim : demoExecutorMon.memory_limit_bytes = 21474836480 := by
    show (⌊(20 : ℚ) * 1073741824⌋ : ℤ) = 21474836480
    rw [show ((20 : ℚ) * 1073741824) = ((21474836480 : ℤ) : ℚ) by norm_num,
      Int.floor_intCast]
  have hmem : demoEnvOverLimit.memory_usage
      > demoExecutorMon.memory_limit_bytes := by
    rw [hlim]
    norm_num [demoEnvOverLimit]
  have h := C7_preflight_resource_error demoExecutorMon demoEnvOverLimit
    "hrnet" none none hm hmem
  exact ⟨hm, hmem, h.1, h.2.1⟩

/-- C2: when the caller-side wait times out after the pre-call checks
passed, `execute_inference` requests cancellation of the future, marks
the session TIMEOUT, increments the timeout counter by exactly one,
releases the device cache when a device is present, and raises an
`InferenceTimeoutError` carrying the model name, the effective timeout
and the provided logical image size. -/
theorem C2_timeout_path (st st1 : ExecutorState) (env : CallEnv)
    (model_name : String) (t : ℚ) (sz : ℕ × ℕ)
    (hpre : preflight st env = (st1, none))
    (houtcome : env.outcome = .timesOut)
    (ht : ¬ t = 0) :
    (executeInference st env model_name (some t) (some sz)).cancelRequested
      = true ∧
    (executeInference st env model_name (some t) (some sz)).statusUpdates
      = [.running, .timeout, .failed] ∧
    (executeInference st env model_name (some t)
        (some sz)).state.timeout_count = st.timeout_count + 1 ∧
    (st.cuda_available = true →
      (executeInference st env model_name (some t)
          (some sz)).state.empty_cache_calls = st1.empty_cache_calls + 1) ∧
    (executeInference st env model_name (some t) (some sz)).result
      = .error (.timeoutError model_name t sz) := by
  have hcore := preflight_preserves st env
  rw [hpre] at hcore
  have hto : st1.timeout_count = st.timeout_count := hcore.2.2.1
  have hcu : st1.cuda_available = st.cuda_available := hcore.2.2.2.2
  refine ⟨?_, ?_, ?_, ?_, ?_⟩
  · simp [executeInference, runPhase, hpre, houtcome]
  · simp [executeInference, runPhase, hpre, houtcome]
  · simp [executeInference, runPhase, hpre, houtcome, hto]
  · intro hcuda
    simp [executeInference, runPhase, hpre, houtcome, hcu, hcuda]
  · simp [executeInference, runPhase, hpre, houtcome, ht]

/-- Witness for C2 at a timed-out call with timeout 30 and image size
1024 by 1024 on a fresh executor. -/
theorem C2_timeout_path_witness :
    preflight demoExecutor demoEnvTimeout = (demoExecutor, none) ∧
    demoEnvTimeout.outcome = .timesOut ∧
    (executeInference demoExecutor demoEnvTimeout "hrnet" (some 30)
        (some (1024, 1024))).state.timeout_count
      = demoExecutor.timeout_count + 1 ∧
    (executeInference demoExecutor demoEnvTimeout "hrnet" (some 30)
        (some (1024, 1024))).result
      = .error (.timeoutError "hrnet" 30 (1024, 1024)) := by
  have hpre : preflight demoExecutor demoEnvTimeout
      = (demoExecutor, none) := by
    simp [preflight, rotateStream, demoExecutor, initExecutor]
  have h := C2_timeout_path demoExecutor demoExecutor demoEnvTimeout
    "hrnet" 30 (1024, 1024) hpre rfl (by norm_num)
  exact ⟨hpre, rfl, h.2.2.1, h.2.2.2.2⟩

/-- The pre-call checks are a no-op on the monitoring-off, streams-off
demo executor. -/
theorem preflight_demo (env : CallEnv) :
    preflight demoExecutor env = (demoExecutor, none) := by
  simp [preflight, rotateStream, demoExecutor, initExecutor]

/-- C5: the claim fails on the code.  A callable raising
`RuntimeError("CUDA out of memory")` does run the emergency cleanup,
but the resource error raised inside the worker is caught by the
caller-side exception handler and re-wrapped, so the call fails with a
generic `InferenceError`, not with a resource error. -/
theorem C5_counterexample :
    (executeInference demoExecutor demoEnvOom "hrnet" none none).result
      = .error (.inferenceError
          "Inference failed: GPU out of memory during inference: CUDA out of memory") ∧
    isResourceErrorResult
      (executeInference demoExecutor demoEnvOom "hrnet" none none).result
      = false := by
  have hoom : oomText "CUDA out of memory" = true := by decide
  have h1 : (executeInference demoExecutor demoEnvOom "hrnet" none
      none).result = .error (.inferenceError
        "Inference failed: GPU out of memory during inference: CUDA out of memory") := by
    unfold executeInference
    simp only [preflight_demo]
    simp [runPhase, demoEnvOom, hoom, PyExc.str]
  exact ⟨h1, by rw [h1]; rfl⟩

theorem emergencyCleanup_cleanup_calls (s : ExecutorState) :
    (emergencyCleanup s).emergency_cleanup_calls
      = s.emergency_cleanup_calls + 1 := by
  unfold emergencyCleanup
  split <;> rfl

theorem emergencyCleanup_failure_count (s : ExecutorState) :
    (emergencyCleanup s).failure_count = s.failure_count := by
  unfold emergencyCleanup
  split <;> rfl

theorem emergencyCleanup_total (s : ExecutorState) :
    (emergencyCleanup s).total_inferences = s.total_inferences := by
  unfold emergencyCleanup
  split <;> rfl

theorem emergencyCleanup_timeout_count (s : ExecutorState) :
    (emergencyCleanup s).timeout_count = s.timeout_count := by
  unfold emergencyCleanup
  split <;> rfl

theorem oom_wrap_msg (m : String) :
    "Inference failed: " ++ ("GPU out of memory during inference: " ++ m)
      = "Inference failed: GPU out of memory during inference: " ++ m := by
  rw [← String.append_assoc]
  rfl

theorem pyStr_runtime_or_other (c : Bool) (m : String) :
    PyExc.str (if c = true then PyExc.runtimeError m else PyExc.otherError m)
      = m := by
  cases c <;> rfl

/-- C5 (amended): a `RuntimeError` whose text indicates device
out-of-memory triggers the emergency memory cleanup and an internal
resource error, but the call ultimately fails with the generic
inference error wrapping that resource error's message, the session
being marked FAILED; every other exception escaping the callable marks
the session FAILED and fails with the generic inference error that
preserves the original message.  Either way the failure counter is
incremented. -/
theorem C5_failure_wrapping (st st1 : ExecutorState) (env : CallEnv)
    (model_name : String) (timeout : Option ℚ)
    (image_size : Option (ℕ × ℕ))
    (hpre : preflight st env = (st1, none)) :
    (∀ msg, env.outcome = .raises true msg → oomText msg = true →
      (executeInference st env model_name timeout
          image_size).state.emergency_cleanup_calls
        = st1.emergency_cleanup_calls + 1 ∧
      (executeInference st env model_name timeout image_size).statusUpdates
        = [.running, .failed, .failed] ∧
      (executeInference st env model_name timeout image_size).result
        = .error (.inferenceError
            ("Inference failed: GPU out of memory during inference: " ++ msg)) ∧
      (executeInference st env model_name timeout
          image_size).state.failure_count = st.failure_count + 1) ∧
    (∀ runtime msg, env.outcome = .raises runtime msg →
      (runtime && oomText msg) = false →
      (executeInference st env model_name timeout
          image_size).state.emergency_cleanup_calls
        = st1.emergency_cleanup_calls ∧
      (executeInference st env model_name timeout image_size).statusUpdates
        = [.running, .failed, .failed] ∧
      (executeInference st env model_name timeout image_size).result
        = .error (.inferenceError ("Inference failed: " ++ msg)) ∧
      (executeInference st env model_name timeout
          image_size).state.failure_count = st.failure_count + 1) := by
  have hcore := preflight_preserves st env
  rw [hpre] at hcore
  have hfail : st1.failure_count = st.failure_count := hcore.2.2.2.1
  constructor
  · intro msg ho hoom
    refine ⟨?_, ?_, ?_, ?_⟩ <;>
      simp [executeInference, runPhase, hpre, ho, hoom,
        emergencyCleanup_cleanup_calls, emergencyCleanup_failure_count,
        hfail, PyExc.str, oom_wrap_msg]
  · intro runtime msg ho hfalse
    refine ⟨?_, ?_, ?_, ?_⟩ <;>
      simp [executeInference, runPhase, hpre, ho, hfalse,
        pyStr_runtime_or_other, hfail]

/-- Witness for C5's amended theorem at
`RuntimeError("CUDA out of memory")` on a fresh executor. -/
theorem C5_failure_wrapping_witness :
    preflight demoExecutor demoEnvOom = (demoExecutor, none) ∧
    demoEnvOom.outcome = .raises true "CUDA out of memory" ∧
    oomText "CUDA out of memory" = true ∧
    (executeInference demoExecutor demoEnvOom "hrnet" none
        none).state.emergency_cleanup_calls
      = demoExecutor.emergency_cleanup_calls + 1 ∧
    (executeInference demoExecutor demoEnvOom "hrnet" none none).result
      = .error (.inferenceError
          ("Inference failed: GPU out of memory during inference: "
            ++ "CUDA out of memory")) := by
  have h := (C5_failure_wrapping demoExecutor demoExecutor demoEnvOom
    "hrnet" none none (preflight_demo demoEnvOom)).1
    "CUDA out of memory" rfl (by decide)
  exact ⟨preflight_demo demoEnvOom, rfl, by decide, h.1, h.2.2.1⟩

/-- After two timed-out calls on a fresh executor the timeout counter
is 2 while the success counter is still 0. -/
theorem twoTimeouts_counters :
    twoTimeoutsState.timeout_count = 2 ∧
    twoTimeoutsState.total_inferences = 0 := by
  constructor <;>
    simp [twoTimeoutsState, executeInference, runPhase, preflight_demo,
      demoEnvTimeout, demoExecutor, initExecutor, preflight, rotateStream]

/-- After two failed calls on a fresh executor the failure counter is
2 while the success counter is still 0. -/
theorem twoFailures_counters :
    twoFailuresState.failure_count = 2 ∧
    twoFailuresState.total_inferences = 0 := by
  constructor <;>
    simp [twoFailuresState, executeInference, runPhase, preflight_demo,
      demoEnvFailure, demoExecutor, initExecutor, preflight, rotateStream]

/-- C10: `total_inferences` counts only successfully returning calls —
a timed-out call bumps only `timeout_count` and a failed call only
`failure_count` — and `get_metrics` divides the timeout and failure
rates by `max(1, total_inferences)`, i.e. by the successful calls, not
by all attempted ones: after two timeouts (or two failures) and no
success the corresponding rate is 2, exceeding 1. -/
theorem C10_rates_divide_by_successes (st st1 : ExecutorState)
    (env : CallEnv) (model_name : String) (timeout : Option ℚ)
    (image_size : Option (ℕ × ℕ))
    (hpre : preflight st env = (st1, none)) :
    (∀ out, env.outcome = .completes out →
      (executeInference st env model_name timeout
          image_size).state.total_inferences = st.total_inferences + 1 ∧
      (executeInference st env model_name timeout
          image_size).state.timeout_count = st.timeout_count ∧
      (executeInference st env model_name timeout
          image_size).state.failure_count = st.failure_count) ∧
    (env.outcome = .timesOut →
      (executeInference st env model_name timeout
          image_size).state.total_inferences = st.total_inferences ∧
      (executeInference st env model_name timeout
          image_size).state.timeout_count = st.timeout_count + 1 ∧
      (executeInference st env model_name timeout
          image_size).state.failure_count = st.failure_count) ∧
    (∀ runtime msg, env.outcome = .raises runtime msg →
      (executeInference st env model_name timeout
          image_size).state.total_inferences = st.total_inferences ∧
      (executeInference st env model_name timeout
          image_size).state.timeout_count = st.timeout_count ∧
      (executeInference st env model_name timeout
          image_size).state.failure_count = st.failure_count + 1) ∧
    (getMetrics st).timeout_rate
      = (st.timeout_count : ℚ) / ((max 1 st.total_inferences : ℕ) : ℚ) ∧
    (getMetrics st).failure_rate
      = (st.failure_count : ℚ) / ((max 1 st.total_inferences : ℕ) : ℚ) ∧
    (getMetrics twoTimeoutsState).timeout_rate = 2 ∧
    (getMetrics twoFailuresState).failure_rate = 2 ∧
    1 < (getMetrics twoTimeoutsState).timeout_rate ∧
    1 < (getMetrics twoFailuresState).failure_rate := by
  have hcore := preflight_preserves st env
  rw [hpre] at hcore
  have htot : st1.total_inferences = st.total_inferences := hcore.2.1
  have hto : st1.timeout_count = st.timeout_count := hcore.2.2.1
  have hfail : st1.failure_count = st.failure_count := hcore.2.2.2.1
  have hrate2 : (getMetrics twoTimeoutsState).timeout_rate = 2 := by
    simp [getMetrics, twoTimeouts_counters.1, twoTimeouts_counters.2]
  have hrate2f : (getMetrics twoFailuresState).failure_rate = 2 := by
    simp [getMetrics, twoFailures_counters.1, twoFailures_counters.2]
  refine ⟨?_, ?_, ?_, by simp [getMetrics], by simp [getMetrics],
    hrate2, hrate2f, by rw [hrate2]; norm_num, by rw [hrate2f]; norm_num⟩
  · intro out ho
    refine ⟨?_, ?_, ?_⟩ <;>
      simp [executeInference, runPhase, hpre, ho, htot, hto, hfail]
  · intro ho
    refine ⟨?_, ?_, ?_⟩ <;>
      simp [executeInference, runPhase, hpre, ho, htot, hto, hfail]
  · intro runtime msg ho
    cases hb : (runtime && oomText msg) with
    | true =>
        refine ⟨?_, ?_, ?_⟩ <;>
          simp [executeInference, runPhase, hpre, ho, hb,
            emergencyCleanup_total, emergencyCleanup_timeout_count,
            emergencyCleanup_failure_count, htot, hto, hfail]
    | false =>
        refine ⟨?_, ?_, ?_⟩ <;>
          simp [executeInference, runPhase, hpre, ho, hb, htot, hto, hfail]

/-- Witness for C10 at a timed-out call on a fresh executor. -/
theorem C10_rates_divide_by_successes_witness :
    preflight demoExecutor demoEnvTimeout = (demoExecutor, none) ∧
    demoEnvTimeout.outcome = .timesOut ∧
    (executeInference demoExecutor demoEnvTimeout "hrnet" none
        none).state.total_inferences = demoExecutor.total_inferences ∧
    (executeInference demoExecutor demoEnvTimeout "hrnet" none
        none).state.timeout_count = demoExecutor.timeout_count + 1 := by
  have h := (C10_rates_divide_by_successes demoExecutor demoExecutor
    demoEnvTimeout "hrnet" none none (preflight_demo demoEnvTimeout)).2.1 rfl
  exact ⟨preflight_demo demoEnvTimeout, rfl, h.1, h.2.1⟩

end CellSeg
